import Mathlib

/-!
Shallow embedding of the nebula in-memory batch read path: the schema type
system (Types.h) and the row/list cursor accessors (Batch.cpp).  The parts
of the repository that Batch.cpp depends on but whose sources are absent
(Batch.h, DataNode.h, Tree.h, the FlatBuffer packed snapshot) are modelled
from the specification, as marked in the corresponding doc comments.
-/

set_option autoImplicit false

namespace Nebula

/-- Error conditions raised by the N_ENSURE checks in the source:
row id out of bound (seek, childAt), field not found (dnMap lookups) and
the child-arity check of compound type construction. -/
inductive NError where
  | outOfRange
  | fieldNotFound
  | arityViolation
  deriving DecidableEq, Repr

/-- The Kind enumeration of Types.h: all supported types in nebula. -/
inductive Kind where
  | INVALID
  | BOOLEAN
  | TINYINT
  | SMALLINT
  | INTEGER
  | BIGINT
  | REAL
  | DOUBLE
  | VARCHAR
  | VARBINARY
  | TIMESTAMP
  | ARRAY
  | MAP
  | STRUCT
  deriving DecidableEq, Repr

/-- The scalar value types served by the typed readers, one per
READ_TYPE_BY_FIELD / READ_TYPE_BY_ENTRY instantiation in Batch.cpp. -/
inductive ScalarTy where
  | tbool
  | tbyte
  | tshort
  | tint
  | tlong
  | tfloat
  | tdouble
  | tint128
  | tstring
  deriving DecidableEq, Repr

/-- Lean denotation of each scalar type.  The C++ integral types are
modelled as unbounded integers: the readers copy values through unchanged,
performing no arithmetic, so widths never matter here.  float and double
are modelled by their raw bit patterns as naturals for the same reason: the
readers move the bits and never compute with them. -/
def ScalarTy.denote : ScalarTy → Type
  | .tbool => Bool
  | .tbyte => Int
  | .tshort => Int
  | .tint => Int
  | .tlong => Int
  | .tfloat => Nat
  | .tdouble => Nat
  | .tint128 => Int
  | .tstring => String

instance ScalarTy.decEqDenote (t : ScalarTy) : DecidableEq t.denote :=
  match t with
  | .tbool => inferInstanceAs (DecidableEq Bool)
  | .tbyte => inferInstanceAs (DecidableEq Int)
  | .tshort => inferInstanceAs (DecidableEq Int)
  | .tint => inferInstanceAs (DecidableEq Int)
  | .tlong => inferInstanceAs (DecidableEq Int)
  | .tfloat => inferInstanceAs (DecidableEq Nat)
  | .tdouble => inferInstanceAs (DecidableEq Nat)
  | .tint128 => inferInstanceAs (DecidableEq Int)
  | .tstring => inferInstanceAs (DecidableEq String)

/-- Modelled from the spec: the per-column storage capability interface of
DataNode (DataNode.h is not among the sources; spec section 4.2): a Kind
tag, a per-row null indicator, typed reads, the ordered child nodes, and —
meaningful for ARRAY-kind nodes — the per-row (offset, count) slice into
the child node. -/
inductive DataNode : Type where
  | mk (kind : Kind)
       (isNull : Nat → Bool)
       (read : (t : ScalarTy) → Nat → t.denote)
       (children : List DataNode)
       (offsetSize : Nat → Nat × Nat)

def DataNode.kind : DataNode → Kind
  | .mk k _ _ _ _ => k

def DataNode.isNull : DataNode → Nat → Bool
  | .mk _ n _ _ _ => n

def DataNode.read : (d : DataNode) → (t : ScalarTy) → Nat → t.denote
  | .mk _ _ r _ _ => r

def DataNode.children : DataNode → List DataNode
  | .mk _ _ _ cs _ => cs

/-- childAt(i): the i-th child node, when it exists. -/
def DataNode.childAt (d : DataNode) (i : Nat) : Option DataNode :=
  d.children[i]?

def DataNode.offsetSize : DataNode → Nat → Nat × Nat
  | .mk _ _ _ _ os => os

/-- Modelled from the spec: the bit reader of the packed snapshot buffer —
read n bits starting at bit offset off of the buffer (spec section 9:
an explicit bit-level reader parameterized by a fixed per-row bit width). -/
def readBits (buf : Nat → Bool) (off n : Nat) : Nat :=
  (List.range n).foldl (fun acc i => 2 * acc + (if buf (off + i) then 1 else 0)) 0

/-- Modelled from the spec: the packed fast-path snapshot decoder (the
FlatBuffer pod of the source, whose code is not among the sources).
value(field, t, bessWindow) decodes the field's value of type t from the
per-row bit window, returning none when the field is not part of the packed
subset.  The spaces argument of the source call is a fixed per-batch table
and is folded into this function. -/
structure FlatBuffer where
  value : String → (t : ScalarTy) → Nat → Option t.denote

/-- Modelled from the spec: the Batch state read by the accessors (Batch.h
is not among the sources): the row count rows_, the field-name map dnMap_
to DataNodes, the optional packed snapshot pod_, its bit buffer bess_ and
the fixed per-row bit width bessBits_. -/
structure Batch where
  rows : Nat
  dnMap : String → Option DataNode
  pod : Option FlatBuffer
  bess : Nat → Bool
  bessBits : Nat

/-- The mutable cursor state of RowAccessor: the Batch it is bound to, the
current row index current_, and the cached bit window bessValue_. -/
structure RowAccessor where
  batch : Batch
  current : Nat
  bessValue : Nat

/-- RowAccessor::seek (Batch.cpp): N_ENSURE(rowId < batch_.rows_) fires
before any member is written; on success current_ is assigned and, when a
pod is configured, bessValue_ is re-read from the bess bit buffer at the
new row.  The result pair is the accessor state after the call together
with the error if the ensure fired; the returned *this reference is
rendered as the post state. -/
def RowAccessor.seek (a : RowAccessor) (rowId : Nat) : RowAccessor × Option NError :=
  if rowId < a.batch.rows then
    match a.batch.pod with
    | some _ =>
      (RowAccessor.mk a.batch rowId
        (readBits a.batch.bess (rowId * a.batch.bessBits) a.batch.bessBits), none)
    | none => (RowAccessor.mk a.batch rowId a.bessValue, none)
  else
    (a, some NError.outOfRange)

/-- RowAccessor::isNull (Batch.cpp): look the field up in dnMap_,
N_ENSURE it was found, and delegate to the DataNode's isNull(current_). -/
def RowAccessor.isNull (a : RowAccessor) (field : String) : Except NError Bool :=
  match a.batch.dnMap field with
  | none => Except.error NError.fieldNotFound
  | some dn => Except.ok (dn.isNull a.current)

/-- The DataNode path of a scalar field read:
dnMap_.at(field)->read<TYPE>(current_), where .at throws on a missing
field. -/
def RowAccessor.readNode (a : RowAccessor) (t : ScalarTy) (field : String) :
    Except NError t.denote :=
  match a.batch.dnMap field with
  | none => Except.error NError.fieldNotFound
  | some dn => Except.ok (dn.read t a.current)

/-- READ_TYPE_BY_FIELD (Batch.cpp): when a pod is configured and its value
call succeeds on the field, return the value decoded from the cached bit
window bessValue_; otherwise fall back to the DataNode path. -/
def RowAccessor.readTyped (a : RowAccessor) (t : ScalarTy) (field : String) :
    Except NError t.denote :=
  match a.batch.pod with
  | some pod =>
    match pod.value field t a.bessValue with
    | some v => Except.ok v
    | none => a.readNode t field
  | none => a.readNode t field

def RowAccessor.readBool (a : RowAccessor) (field : String) : Except NError Bool :=
  a.readTyped ScalarTy.tbool field

def RowAccessor.readByte (a : RowAccessor) (field : String) : Except NError Int :=
  a.readTyped ScalarTy.tbyte field

def RowAccessor.readShort (a : RowAccessor) (field : String) : Except NError Int :=
  a.readTyped ScalarTy.tshort field

def RowAccessor.readInt (a : RowAccessor) (field : String) : Except NError Int :=
  a.readTyped ScalarTy.tint field

def RowAccessor.readLong (a : RowAccessor) (field : String) : Except NError Int :=
  a.readTyped ScalarTy.tlong field

def RowAccessor.readFloat (a : RowAccessor) (field : String) : Except NError Nat :=
  a.readTyped ScalarTy.tfloat field

def RowAccessor.readDouble (a : RowAccessor) (field : String) : Except NError Nat :=
  a.readTyped ScalarTy.tdouble field

def RowAccessor.readInt128 (a : RowAccessor) (field : String) : Except NError Int :=
  a.readTyped ScalarTy.tint128 field

def RowAccessor.readString (a : RowAccessor) (field : String) : Except NError String :=
  a.readTyped ScalarTy.tstring field

/-- The state a ListAccessor is bound to at construction:
(offset_, count_, node_) where node_ is the child data node. -/
structure ListAccessor where
  offset : Nat
  count : Nat
  node : DataNode

/-- RowAccessor::readList (Batch.cpp): resolve the field's DataNode with
dnMap_.at, take its single child childAt(0), compute
(offset, count) = offsetSize(current_) and bind a fresh ListAccessor to
them. -/
def RowAccessor.readList (a : RowAccessor) (field : String) :
    Except NError ListAccessor :=
  match a.batch.dnMap field with
  | none => Except.error NError.fieldNotFound
  | some listNode =>
    match listNode.childAt 0 with
    | none => Except.error NError.outOfRange
    | some child =>
      Except.ok (ListAccessor.mk (listNode.offsetSize a.current).1
        (listNode.offsetSize a.current).2 child)

/-- Surface MapData values.  The accessor never produces one, so the shape
is irrelevant; RowAccessor::readMap returns nullptr, rendered as none. -/
structure MapData where
  entries : List (String × String)

/-- RowAccessor::readMap (Batch.cpp): return nullptr, unconditionally. -/
def RowAccessor.readMap (_ : RowAccessor) (_ : String) : Option MapData :=
  none

/-- ListAccessor::isNull (Batch.cpp): return node_->isNull(index).
Note the source does not add offset_ here, unlike every scalar reader of
the same class. -/
def ListAccessor.isNull (l : ListAccessor) (index : Nat) : Bool :=
  l.node.isNull index

/-- READ_TYPE_BY_ENTRY (Batch.cpp): return node_->read<TYPE>(offset_ + index). -/
def ListAccessor.readTyped (l : ListAccessor) (t : ScalarTy) (index : Nat) : t.denote :=
  l.node.read t (l.offset + index)

def ListAccessor.readBool (l : ListAccessor) (index : Nat) : Bool :=
  l.readTyped ScalarTy.tbool index

def ListAccessor.readByte (l : ListAccessor) (index : Nat) : Int :=
  l.readTyped ScalarTy.tbyte index

def ListAccessor.readShort (l : ListAccessor) (index : Nat) : Int :=
  l.readTyped ScalarTy.tshort index

def ListAccessor.readInt (l : ListAccessor) (index : Nat) : Int :=
  l.readTyped ScalarTy.tint index

def ListAccessor.readLong (l : ListAccessor) (index : Nat) : Int :=
  l.readTyped ScalarTy.tlong index

def ListAccessor.readFloat (l : ListAccessor) (index : Nat) : Nat :=
  l.readTyped ScalarTy.tfloat index

def ListAccessor.readDouble (l : ListAccessor) (index : Nat) : Nat :=
  l.readTyped ScalarTy.tdouble index

def ListAccessor.readInt128 (l : ListAccessor) (index : Nat) : Int :=
  l.readTyped ScalarTy.tint128 index

def ListAccessor.readString (l : ListAccessor) (index : Nat) : String :=
  l.readTyped ScalarTy.tstring index

/-- Schema type node (Types.h): a name, a Kind tag and the ordered child
nodes.  The Tree base class (Tree.h, not among the sources) is modelled
from the spec as an ordered child list. -/
inductive TypeNode : Type where
  | mk (name : String) (kind : Kind) (children : List TypeNode)

def TypeNode.name : TypeNode → String
  | .mk n _ _ => n

def TypeNode.kind : TypeNode → Kind
  | .mk _ k _ => k

def TypeNode.children : TypeNode → List TypeNode
  | .mk _ _ cs => cs

/-- Tree::addChild, modelled from the spec: attaches the child at the end
of the ordered child list (children are attached in argument order). -/
def TypeNode.addChild (t : TypeNode) (c : TypeNode) : TypeNode :=
  TypeNode.mk t.name t.kind (t.children ++ [c])

/-- Tree::size, modelled from the spec: the number of children. -/
def TypeNode.size (t : TypeNode) : Nat :=
  t.children.length

/-- The N_ENSURE_EQ(type.size(), 2, "only 2 children allowed") check that
closes Type<Kind::MAP>::create. -/
def mapArityCheck (t : TypeNode) : Except NError TypeNode :=
  if t.size = 2 then Except.ok t else Except.error NError.arityViolation

/-- Type<Kind::MAP>::create (Types.h): construct a MAP-kind node with the
given name, add the key child then the value child, and ensure the final
child count is 2. -/
def createMap (name : String) (key value : TypeNode) : Except NError TypeNode :=
  mapArityCheck (((TypeNode.mk name Kind.MAP []).addChild key).addChild value)

/-- The operations callable on a bound RowAccessor. -/
inductive AccOp where
  | seekOp (rowId : Nat)
  | isNullOp (field : String)
  | scalarOp (t : ScalarTy) (field : String)
  | listOp (field : String)
  | mapOp (field : String)
  deriving DecidableEq, Repr

/-- Whether the operation is one of the read methods (everything except
seek). -/
def AccOp.isRead : AccOp → Bool
  | .seekOp _ => false
  | .isNullOp _ => true
  | .scalarOp _ _ => true
  | .listOp _ => true
  | .mapOp _ => true

/-- State transition of one accessor call.  seek assigns current_ and
bessValue_; every read method of the source is const and assigns no
member, so its post state is its pre state — the value it computes is
discarded here. -/
def RowAccessor.step (a : RowAccessor) : AccOp → RowAccessor
  | AccOp.seekOp r => (a.seek r).1
  | AccOp.isNullOp f => let _ := a.isNull f; a
  | AccOp.scalarOp t f => let _ := a.readTyped t f; a
  | AccOp.listOp f => let _ := a.readList f; a
  | AccOp.mapOp f => let _ := a.readMap f; a

/-- The accessor is bound: positioned by a successful seek, so current_ is
in range and, when a pod is configured, bessValue_ holds the bit window of
the current row. -/
def RowAccessor.Bound (a : RowAccessor) : Prop :=
  a.current < a.batch.rows ∧
    (a.batch.pod.isSome = true →
      a.bessValue = readBits a.batch.bess (a.current * a.batch.bessBits) a.batch.bessBits)

/-- Modelled from the spec: the packed snapshot is a pure accelerator —
every value it decodes for a field it encodes equals that field's DataNode
value at the same row (spec section 3, Batch: values it encodes must
always equal the corresponding DataNode's values for the same row and
field). -/
def SnapshotConsistent (b : Batch) : Prop :=
  ∀ pod, b.pod = some pod →
    ∀ field dn, b.dnMap field = some dn →
      ∀ row, row < b.rows →
        ∀ t : ScalarTy, ∀ v : t.denote,
          pod.value field t (readBits b.bess (row * b.bessBits) b.bessBits) = some v →
          v = dn.read t row

/-! ## Helper lemmas -/

/-- The DataNode path returns the node's value at the current row whenever
the field is present. -/
theorem RowAccessor.readNode_eq_read (a : RowAccessor) (t : ScalarTy)
    (field : String) (dn : DataNode) (hdn : a.batch.dnMap field = some dn) :
    a.readNode t field = Except.ok (dn.read t a.current) := by
  unfold RowAccessor.readNode
  rw [hdn]

/-- On a bound accessor of a consistent batch, the packed fast path of a
scalar read agrees with the DataNode path, whichever branch is taken. -/
theorem RowAccessor.readTyped_eq_readNode (a : RowAccessor)
    (hcons : SnapshotConsistent a.batch) (hb : a.Bound)
    (t : ScalarTy) (field : String) (dn : DataNode)
    (hdn : a.batch.dnMap field = some dn) :
    a.readTyped t field = a.readNode t field := by
  cases hpod : a.batch.pod with
  | none =>
    unfold RowAccessor.readTyped
    simp only [hpod]
  | some pod =>
    cases hv : pod.value field t a.bessValue with
    | none =>
      unfold RowAccessor.readTyped
      simp only [hpod, hv]
    | some v =>
      have hw : a.bessValue =
          readBits a.batch.bess (a.current * a.batch.bessBits) a.batch.bessBits :=
        hb.2 (by rw [hpod]; rfl)
      have hveq : v = dn.read t a.current := by
        apply hcons pod hpod field dn hdn a.current hb.1 t v
        rw [← hw]
        exact hv
      unfold RowAccessor.readTyped
      simp only [hpod, hv, hveq, RowAccessor.readNode_eq_read a t field dn hdn]

/-! ## Concrete fixtures for witnesses -/

/-- A default value of each scalar type, for fixture nodes. -/
def scalarDefault : (t : ScalarTy) → t.denote
  | .tbool => (false : Bool)
  | .tbyte => (0 : Int)
  | .tshort => (0 : Int)
  | .tint => (0 : Int)
  | .tlong => (0 : Int)
  | .tfloat => (0 : Nat)
  | .tdouble => (0 : Nat)
  | .tint128 => (0 : Int)
  | .tstring => ("" : String)

/-- Fixture column: INTEGER, null exactly at row 2, value 7 everywhere. -/
def dnW : DataNode :=
  DataNode.mk Kind.INTEGER (fun r => r == 2)
    (fun t _ =>
      match t with
      | ScalarTy.tint => (7 : Int)
      | ScalarTy.tbool => (false : Bool)
      | ScalarTy.tbyte => (0 : Int)
      | ScalarTy.tshort => (0 : Int)
      | ScalarTy.tlong => (0 : Int)
      | ScalarTy.tfloat => (0 : Nat)
      | ScalarTy.tdouble => (0 : Nat)
      | ScalarTy.tint128 => (0 : Int)
      | ScalarTy.tstring => ("" : String))
    [] (fun _ => (0, 0))

/-- Fixture snapshot: encodes field a as the integer 7, matching dnW. -/
def podW : FlatBuffer :=
  FlatBuffer.mk (fun f t _ =>
    if f = "a" then
      match t with
      | ScalarTy.tint => some (7 : Int)
      | _ => none
    else none)

/-- Fixture batch with a packed snapshot covering field a. -/
def batchW : Batch :=
  Batch.mk 3 (fun f => if f = "a" then some dnW else none) (some podW)
    (fun _ => false) 0

/-- Fixture accessor bound to row 1 of batchW. -/
def accW : RowAccessor :=
  RowAccessor.mk batchW 1 0

/-- The fixture snapshot is consistent with the fixture DataNode. -/
theorem batchW_consistent : SnapshotConsistent batchW := by
  intro pod hpod field dn hdn row hrow t v hv
  have hpodW : batchW.pod = some podW := rfl
  rw [hpodW] at hpod
  have hpod2 : pod = podW := (Option.some.inj hpod).symm
  subst hpod2
  by_cases hf : field = "a"
  · subst hf
    have hdn2 : dn = dnW := by
      have : (if "a" = "a" then some dnW else none) = some dn := hdn
      simpa using this.symm
    subst hdn2
    cases t <;> simp_all [podW, dnW, DataNode.read]
  · exfalso
    simp only [podW, if_neg hf] at hv
    exact Option.noConfusion hv

/-- Fixture child column for the offset counterexample: null exactly at
child row 1. -/
def childX : DataNode :=
  DataNode.mk Kind.INTEGER (fun r => r == 1) (fun t _ => scalarDefault t)
    [] (fun _ => (0, 0))

/-- Fixture list accessor bound at offset 1 over childX. -/
def listX : ListAccessor := ListAccessor.mk 1 2 childX

/-- Fixture child column whose INTEGER value at row i is i. -/
def childY : DataNode :=
  DataNode.mk Kind.INTEGER (fun r => r == 1)
    (fun t i =>
      match t with
      | ScalarTy.tint => (Int.ofNat i : Int)
      | ScalarTy.tbool => (false : Bool)
      | ScalarTy.tbyte => (0 : Int)
      | ScalarTy.tshort => (0 : Int)
      | ScalarTy.tlong => (0 : Int)
      | ScalarTy.tfloat => (0 : Nat)
      | ScalarTy.tdouble => (0 : Nat)
      | ScalarTy.tint128 => (0 : Int)
      | ScalarTy.tstring => ("" : String))
    [] (fun _ => (0, 0))

/-- Fixture list accessor bound at offset 3 over childY. -/
def listY : ListAccessor := ListAccessor.mk 3 2 childY

/-- Fixture element column of the array fixture. -/
def childL : DataNode :=
  DataNode.mk Kind.INTEGER (fun _ => false) (fun t _ => scalarDefault t)
    [] (fun _ => (0, 0))

/-- Fixture ARRAY column: rows slice the child in pairs. -/
def listNodeL : DataNode :=
  DataNode.mk Kind.ARRAY (fun _ => false) (fun t _ => scalarDefault t)
    [childL] (fun r => (2 * r, 2))

/-- Fixture batch holding the ARRAY column under field b, no snapshot. -/
def batchL : Batch :=
  Batch.mk 3 (fun f => if f = "b" then some listNodeL else none) none
    (fun _ => false) 0

/-- Fixture accessor bound to row 1 of batchL. -/
def accL : RowAccessor :=
  RowAccessor.mk batchL 1 0

/-- Fixture batch with no snapshot and no fields, 3 rows. -/
def batchS : Batch :=
  Batch.mk 3 (fun _ => none) none (fun _ => false) 0

/-- Fixture accessor bound to row 0 of batchS. -/
def accS : RowAccessor :=
  RowAccessor.mk batchS 0 0

/-- Fixture key type node. -/
def tKey : TypeNode := TypeNode.mk "k" Kind.INTEGER []

/-- Fixture value type node. -/
def tVal : TypeNode := TypeNode.mk "v" Kind.VARCHAR []

/-- Fixture node with a single child, violating MAP arity. -/
def tBad : TypeNode := TypeNode.mk "bad" Kind.MAP [tKey]

/-! ## Claims -/

/-- Claim C1: for every field included in the packed snapshot and every
row, the scalar readers readBool..readString return the value decoded from
the cached bit window, equal to what the DataNode path read<T>(currentRow)
returns for the same field and row; when the snapshot is absent or does
not include the field, the reader returns the DataNode path's value.
Here: on a bound accessor over a snapshot-consistent batch, each of the
nine readers equals the DataNode path readNode, which in turn is the
DataNode value at the current row. -/
theorem C1_scalar_readers_refine_datanode_path (a : RowAccessor)
    (hcons : SnapshotConsistent a.batch) (hb : a.Bound)
    (field : String) (dn : DataNode) (hdn : a.batch.dnMap field = some dn) :
    a.readBool field = a.readNode ScalarTy.tbool field ∧
    a.readByte field = a.readNode ScalarTy.tbyte field ∧
    a.readShort field = a.readNode ScalarTy.tshort field ∧
    a.readInt field = a.readNode ScalarTy.tint field ∧
    a.readLong field = a.readNode ScalarTy.tlong field ∧
    a.readFloat field = a.readNode ScalarTy.tfloat field ∧
    a.readDouble field = a.readNode ScalarTy.tdouble field ∧
    a.readInt128 field = a.readNode ScalarTy.tint128 field ∧
    a.readString field = a.readNode ScalarTy.tstring field ∧
    (∀ t : ScalarTy, a.readNode t field = Except.ok (dn.read t a.current)) := by
  refine ⟨?_, ?_, ?_, ?_, ?_, ?_, ?_, ?_, ?_, ?_⟩
  · exact a.readTyped_eq_readNode hcons hb ScalarTy.tbool field dn hdn
  · exact a.readTyped_eq_readNode hcons hb ScalarTy.tbyte field dn hdn
  · exact a.readTyped_eq_readNode hcons hb ScalarTy.tshort field dn hdn
  · exact a.readTyped_eq_readNode hcons hb ScalarTy.tint field dn hdn
  · exact a.readTyped_eq_readNode hcons hb ScalarTy.tlong field dn hdn
  · exact a.readTyped_eq_readNode hcons hb ScalarTy.tfloat field dn hdn
  · exact a.readTyped_eq_readNode hcons hb ScalarTy.tdouble field dn hdn
  · exact a.readTyped_eq_readNode hcons hb ScalarTy.tint128 field dn hdn
  · exact a.readTyped_eq_readNode hcons hb ScalarTy.tstring field dn hdn
  · intro t
    exact a.readNode_eq_read t field dn hdn

/-- Witness for C1 at the fixture batchW: the packed snapshot covers field
a with value 7, and readInt returns exactly the DataNode value 7. -/
theorem C1_witness : accW.readInt "a" = Except.ok (7 : Int) := by
  have hb : accW.Bound := by
    constructor
    · decide
    · intro _
      rfl
  have hdn : accW.batch.dnMap "a" = some dnW := by rfl
  have h := C1_scalar_readers_refine_datanode_path accW batchW_consistent hb "a" dnW hdn
  exact (h.2.2.2.1).trans (h.2.2.2.2.2.2.2.2.2 ScalarTy.tint)

/-- Claim C2 (refuted on the code): the claim states
ListAccessor.isNull(localIndex) = childNode.isNull(offset + localIndex),
but the source returns node_->isNull(index) without adding offset_: at
offset 1 over a child that is null exactly at row 1, isNull 0 is false
while childNode.isNull(offset + 0) is true. -/
theorem C2_isNull_drops_offset :
    listX.isNull 0 = false ∧ childX.isNull (listX.offset + 0) = true := by
  exact ⟨rfl, rfl⟩

/-- Claim C3: seek(rowId) fails with OutOfRange exactly when
rowId >= rowCount; for rowId < rowCount it repositions the cursor to
rowId, re-reads the fixed-width bit window when a packed snapshot is
configured (and leaves the cached window alone when none is), and the
returned accessor is the post state itself, still bound to the same
batch. -/
theorem C3_seek_bound_check (a : RowAccessor) (rowId : Nat) :
    (a.batch.rows ≤ rowId → a.seek rowId = (a, some NError.outOfRange)) ∧
    (rowId < a.batch.rows →
      (a.seek rowId).2 = none ∧
      (a.seek rowId).1.batch = a.batch ∧
      (a.seek rowId).1.current = rowId ∧
      (a.batch.pod.isSome = true →
        (a.seek rowId).1.bessValue =
          readBits a.batch.bess (rowId * a.batch.bessBits) a.batch.bessBits) ∧
      (a.batch.pod = none → (a.seek rowId).1.bessValue = a.bessValue)) := by
  constructor
  · intro h
    unfold RowAccessor.seek
    rw [if_neg (Nat.not_lt.mpr h)]
  · intro h
    cases hpod : a.batch.pod with
    | none =>
      unfold RowAccessor.seek
      simp only [if_pos h, hpod]
      simp
    | some pod =>
      unfold RowAccessor.seek
      simp only [if_pos h, hpod]
      simp

/-- Witness for C3 at the fixture accS (3 rows): seeking row 5 fails with
OutOfRange and seeking row 2 succeeds, repositioning the cursor to 2. -/
theorem C3_witness :
    accS.seek 5 = (accS, some NError.outOfRange) ∧
    (accS.seek 2).2 = none ∧ (accS.seek 2).1.current = 2 := by
  have h5 := C3_seek_bound_check accS 5
  have h2 := C3_seek_bound_check accS 2
  exact ⟨h5.1 (by decide), (h2.2 (by decide)).1, (h2.2 (by decide)).2.2.1⟩

/-- Claim C4: on a bound accessor at current row r, readList(field) on an
ARRAY-kind field DataNode returns a ListAccessor bound exactly to
(offset, count, childNode), with childNode the DataNode's child 0 and
(offset, count) = offsetSize(r). -/
theorem C4_readList_binding (a : RowAccessor) (field : String)
    (listNode child : DataNode)
    (hdn : a.batch.dnMap field = some listNode)
    (hkind : listNode.kind = Kind.ARRAY)
    (hchild : listNode.childAt 0 = some child) :
    a.readList field =
      Except.ok (ListAccessor.mk (listNode.offsetSize a.current).1
        (listNode.offsetSize a.current).2 child) := by
  unfold RowAccessor.readList
  simp only [hdn, hchild]

/-- Witness for C4 at the fixture accL bound to row 1: the ARRAY field b
slices the child in pairs, so the list accessor is bound to (2, 2, childL). -/
theorem C4_witness : accL.readList "b" = Except.ok (ListAccessor.mk 2 2 childL) := by
  have h := C4_readList_binding accL "b" listNodeL childL rfl rfl rfl
  exact h

/-- Claim C5: every scalar reader of a ListAccessor bound to
(offset, count, childNode), at localIndex i in [0, count), returns
childNode.read<T>(offset + i). -/
theorem C5_list_scalar_readers (l : ListAccessor) (i : Nat) (h : i < l.count) :
    l.readBool i = l.node.read ScalarTy.tbool (l.offset + i) ∧
    l.readByte i = l.node.read ScalarTy.tbyte (l.offset + i) ∧
    l.readShort i = l.node.read ScalarTy.tshort (l.offset + i) ∧
    l.readInt i = l.node.read ScalarTy.tint (l.offset + i) ∧
    l.readLong i = l.node.read ScalarTy.tlong (l.offset + i) ∧
    l.readFloat i = l.node.read ScalarTy.tfloat (l.offset + i) ∧
    l.readDouble i = l.node.read ScalarTy.tdouble (l.offset + i) ∧
    l.readInt128 i = l.node.read ScalarTy.tint128 (l.offset + i) ∧
    l.readString i = l.node.read ScalarTy.tstring (l.offset + i) := by
  exact ⟨rfl, rfl, rfl, rfl, rfl, rfl, rfl, rfl, rfl⟩

/-- Witness for C5 at the fixture listY bound at offset 3 over childY
(whose INTEGER value at row j is j): reading local index 0 yields the
child value at absolute row 3. -/
theorem C5_witness : listY.readInt 0 = childY.read ScalarTy.tint (3 + 0) := by
  exact (C5_list_scalar_readers listY 0 (by decide)).2.2.2.1

/-- Claim C6: isNull(field) on a bound accessor fails with FieldNotFound
exactly when the name is absent from the batch's field map, and otherwise
returns the field DataNode's isNull at the current row. -/
theorem C6_isNull_field_lookup (a : RowAccessor) (field : String) :
    (a.batch.dnMap field = none →
      a.isNull field = Except.error NError.fieldNotFound) ∧
    (∀ dn, a.batch.dnMap field = some dn →
      a.isNull field = Except.ok (dn.isNull a.current)) := by
  constructor
  · intro h
    unfold RowAccessor.isNull
    rw [h]
  · intro dn h
    unfold RowAccessor.isNull
    rw [h]

/-- Witness for C6 at the fixture accL: field b resolves to its node's
null bit at row 1, and a missing name fails with FieldNotFound. -/
theorem C6_witness :
    accL.isNull "b" = Except.ok false ∧
    accL.isNull "zzz" = Except.error NError.fieldNotFound := by
  exact ⟨(C6_isNull_field_lookup accL "b").2 listNodeL rfl,
    (C6_isNull_field_lookup accL "zzz").1 rfl⟩

/-- Claim C7: readMap(field) always returns an absent result, for every
field name and every accessor state; it never raises an error and never
returns a populated map. -/
theorem C7_readMap_always_absent (a : RowAccessor) (field : String) :
    a.readMap field = none := rfl

/-- Claim C8: createMap(name, keyType, valueType) constructs a MAP-kind
node with exactly the 2 children (key, value) in that order, and the
closing arity check fails whenever the final child count is not 2. -/
theorem C8_createMap_arity (name : String) (key value : TypeNode) :
    createMap name key value =
      Except.ok (TypeNode.mk name Kind.MAP [key, value]) ∧
    (TypeNode.mk name Kind.MAP [key, value]).children = [key, value] ∧
    (∀ t : TypeNode, t.size ≠ 2 →
      mapArityCheck t = Except.error NError.arityViolation) := by
  refine ⟨rfl, rfl, ?_⟩
  intro t h
  unfold mapArityCheck
  rw [if_neg h]

/-- Witness for C8 at fixture type nodes: building a map of an INTEGER key
and a VARCHAR value yields the 2-child node, while the arity check rejects
a 1-child node. -/
theorem C8_witness :
    createMap "m" tKey tVal = Except.ok (TypeNode.mk "m" Kind.MAP [tKey, tVal]) ∧
    mapArityCheck tBad = Except.error NError.arityViolation := by
  exact ⟨(C8_createMap_arity "m" tKey tVal).1,
    (C8_createMap_arity "m" tKey tVal).2.2 tBad (by decide)⟩

/-- Claim C9: seek is atomic on failure — for rowId >= rowCount the
failing seek leaves the accessor state (current row and cached bit window)
exactly as before, the bound check preceding any mutation. -/
theorem C9_seek_atomic_on_failure (a : RowAccessor) (rowId : Nat)
    (h : a.batch.rows ≤ rowId) :
    (a.seek rowId).1 = a ∧ (a.seek rowId).2 = some NError.outOfRange := by
  unfold RowAccessor.seek
  rw [if_neg (Nat.not_lt.mpr h)]
  exact ⟨rfl, rfl⟩

/-- Witness for C9 at the fixture accS (3 rows): the failing seek to row 7
returns the untouched state. -/
theorem C9_witness :
    (accS.seek 7).1 = accS ∧ (accS.seek 7).2 = some NError.outOfRange :=
  C9_seek_atomic_on_failure accS 7 (by decide)

/-- Claim C10: every read operation (isNull, the scalar readers, readList,
readMap) leaves the accessor state unchanged — only seek mutates the
current row and the cached bit window — so any sequence of reads between
two seeks observes the same row. -/
theorem C10_reads_preserve_cursor (a : RowAccessor) (ops : List AccOp)
    (h : ∀ op ∈ ops, op.isRead = true) :
    ops.foldl RowAccessor.step a = a := by
  induction ops generalizing a with
  | nil => rfl
  | cons op rest ih =>
    have hop : op.isRead = true := h op (List.mem_cons_self op rest)
    have hstep : a.step op = a := by
      cases op with
      | seekOp r => simp [AccOp.isRead] at hop
      | isNullOp f => rfl
      | scalarOp t f => rfl
      | listOp f => rfl
      | mapOp f => rfl
    rw [List.foldl_cons, hstep]
    exact ih a (fun op2 hop2 => h op2 (List.mem_cons_of_mem op hop2))

/-- Witness for C10 at the fixture accL: a sequence of four reads leaves
the accessor exactly where it was. -/
theorem C10_witness :
    [AccOp.isNullOp "b", AccOp.scalarOp ScalarTy.tint "b", AccOp.listOp "b",
      AccOp.mapOp "q"].foldl RowAccessor.step accL = accL := by
  exact C10_reads_preserve_cursor accL _ (by decide)

end Nebula
